import Mathlib

/-!
Verification of the SRv6 control-plane code (staticd / isisd / zebra FPM
encoder) against its natural-language specification.

The 128-bit SID address (struct in6_addr) is modelled as the list of its 16
bytes s6_addr[0], ..., s6_addr[15]; machine integers are modelled as Nat.
-/

namespace FrrSrv6

/-- A byte string; for SID addresses it is the 16 entries of s6_addr. -/
abbrev Bytes := List Nat

/-! ### Generic list helpers (List.set / List.getD interaction) -/

theorem set_of_length_le {α : Type} (l : List α) (n : Nat) (a : α)
    (h : l.length ≤ n) : l.set n a = l := by
  induction l generalizing n with
  | nil => rfl
  | cons x xs ih =>
    cases n with
    | zero => simp at h
    | succ m =>
      simp only [List.set]
      rw [ih]
      simpa using h

theorem getD_set_self {α : Type} (l : List α) (n : Nat) (a d : α)
    (h : n < l.length) : (l.set n a).getD n d = a := by
  induction l generalizing n with
  | nil => simp at h
  | cons x xs ih =>
    cases n with
    | zero => rfl
    | succ m =>
      simp only [List.set, List.getD_cons_succ]
      exact ih m (by simpa using h)

theorem getD_set_ne {α : Type} (l : List α) (n m : Nat) (a d : α)
    (h : n ≠ m) : (l.set n a).getD m d = l.getD m d := by
  induction l generalizing n m with
  | nil => rfl
  | cons x xs ih =>
    cases n with
    | zero =>
      cases m with
      | zero => exact absurd rfl h
      | succ k => rfl
    | succ n' =>
      cases m with
      | zero => rfl
      | succ k =>
        simp only [List.set, List.getD_cons_succ]
        exact ih n' k (by omega)

/-! ### The SID bit transposition (isisd/isis_srv6.c, transpose_sid) -/

/-- One byte of s6_addr after the C statement sequence
      sid->s6_addr[tidx / 8] &= ~(0x1 << (7 - tidx % 8));
      if (index >> (len - 1 - idx) & 0x1)
              sid->s6_addr[tidx / 8] |= 0x1 << (7 - tidx % 8);
    for k = 7 - tidx % 8 and b the tested index bit.  The and-mask
    255 ^^^ (1 <<< k) is the 8-bit complement of the one-bit mask,
    matching the uint8_t store of the `&=` assignment. -/
def setBitByte (x k : Nat) (b : Bool) : Nat :=
  if b then (x &&& (255 ^^^ (1 <<< k))) ||| (1 <<< k)
  else x &&& (255 ^^^ (1 <<< k))

theorem testBit_setBitByte (x k : Nat) (b : Bool) (j : Nat) (hk : k < 8) :
    (setBitByte x k b).testBit j =
      if j = k then b else if j < 8 then x.testBit j else false := by
  have h1 : ((1 : Nat) <<< k) = 2 ^ k := Nat.one_shiftLeft k
  have h255 : (255 : Nat) = 2 ^ 8 - 1 := by norm_num
  have hmask : ∀ i, ((255 : Nat) ^^^ (1 <<< k)).testBit i
      = ((decide (i < 8)).xor ((2 ^ k : Nat).testBit i)) := by
    intro i
    rw [h1, h255, Nat.testBit_xor, Nat.testBit_two_pow_sub_one]
  have hpow_self : ((2 : Nat) ^ k).testBit k = true := Nat.testBit_two_pow_self
  have hpow_ne : ∀ i, k ≠ i → ((2 : Nat) ^ k).testBit i = false := by
    intro i hne
    exact Nat.testBit_two_pow_of_ne hne
  cases b with
  | false =>
    simp only [setBitByte, Bool.false_eq_true, if_false]
    rw [Nat.testBit_land, hmask j]
    by_cases hjk : j = k
    · subst hjk
      simp [hk, hpow_self]
    · have hkj : k ≠ j := fun h => hjk h.symm
      by_cases hj : j < 8
      · simp [hjk, hj, hpow_ne j hkj]
      · simp [hjk, hj, hpow_ne j hkj]
  | true =>
    simp only [setBitByte, if_true]
    rw [Nat.testBit_lor, Nat.testBit_land, hmask j, h1]
    by_cases hjk : j = k
    · subst hjk
      simp [hk, hpow_self]
    · have hkj : k ≠ j := fun h => hjk h.symm
      by_cases hj : j < 8
      · simp [hjk, hj, hpow_ne j hkj]
      · simp [hjk, hj, hpow_ne j hkj]

theorem setBitByte_comm (x : Nat) {k k' : Nat} (b b' : Bool)
    (hk : k < 8) (hk' : k' < 8) (h : k ≠ k') :
    setBitByte (setBitByte x k b) k' b' = setBitByte (setBitByte x k' b') k b := by
  apply Nat.eq_of_testBit_eq
  intro j
  rw [testBit_setBitByte _ _ _ _ hk', testBit_setBitByte _ _ _ _ hk,
      testBit_setBitByte _ _ _ _ hk, testBit_setBitByte _ _ _ _ hk']
  by_cases h1 : j = k'
  · have h2 : j ≠ k := by omega
    simp [h1, h2, hk', Ne.symm h]
  · by_cases h2 : j = k
    · simp [h1, h2, hk, h]
    · by_cases hj : j < 8 <;> simp [h1, h2, hj]

theorem setBitByte_overwrite (x : Nat) (k : Nat) (b b' : Bool) (hk : k < 8) :
    setBitByte (setBitByte x k b') k b = setBitByte x k b := by
  apply Nat.eq_of_testBit_eq
  intro j
  rw [testBit_setBitByte _ _ _ _ hk, testBit_setBitByte _ _ _ _ hk,
      testBit_setBitByte _ _ _ _ hk]
  by_cases h1 : j = k
  · simp [h1]
  · by_cases hj : j < 8 <;> simp [h1, hj]

/-- One iteration of the transpose_sid loop body at absolute bit position
    tidx, writing bit value b (the C code clears the bit and re-sets it when
    the tested index bit is 1). -/
def transposeStep (sid : Bytes) (tidx : Nat) (b : Bool) : Bytes :=
  sid.set (tidx / 8) (setBitByte (sid.getD (tidx / 8) 0) (7 - tidx % 8) b)

/-- isisd/isis_srv6.c transpose_sid:
      for (uint8_t idx = 0; idx < len; idx++) {
              uint8_t tidx = offset + idx;
              sid->s6_addr[tidx / 8] &= ~(0x1 << (7 - tidx % 8));
              if (index >> (len - 1 - idx) & 0x1)
                      sid->s6_addr[tidx / 8] |= 0x1 << (7 - tidx % 8);
      }
    The tested condition (index >> (len - 1 - idx)) & 0x1 is exactly
    Nat.testBit index (len - 1 - idx). -/
def transpose_sid (sid : Bytes) (index offset len : Nat) : Bytes :=
  (List.range len).foldl
    (fun s idx => transposeStep s (offset + idx) (index.testBit (len - 1 - idx)))
    sid

theorem length_transposeStep (s : Bytes) (t : Nat) (b : Bool) :
    (transposeStep s t b).length = s.length := by
  simp [transposeStep]

theorem length_transpose_sid (s : Bytes) (i o l : Nat) :
    (transpose_sid s i o l).length = s.length := by
  unfold transpose_sid
  generalize List.range l = r
  induction r generalizing s with
  | nil => rfl
  | cons a r ih => simp [ih, length_transposeStep]

/-- Peeling off the last loop iteration: the first len iterations of the
    (len+1)-iteration loop coincide with the len-iteration loop on
    index >>> 1, because (index >> (len - idx)) = ((index >> 1) >> (len-1-idx))
    for idx < len. -/
theorem transpose_sid_succ (sid : Bytes) (index offset l : Nat) :
    transpose_sid sid index offset (l + 1) =
      transposeStep (transpose_sid sid (index >>> 1) offset l) (offset + l)
        (index.testBit 0) := by
  unfold transpose_sid
  rw [List.range_succ, List.foldl_append]
  simp only [List.foldl_cons, List.foldl_nil]
  rw [show l + 1 - 1 - l = 0 from by omega]
  congr 1
  apply List.foldl_ext
  intro s idx hidx
  have hlt : idx < l := List.mem_range.mp hidx
  have hbit : index.testBit (l + 1 - 1 - idx) = (index >>> 1).testBit (l - 1 - idx) := by
    rw [Nat.testBit_shiftRight]
    congr 1
    omega
  rw [hbit]

theorem transposeStep_comm (s : Bytes) (t t' : Nat) (b b' : Bool) (h : t ≠ t') :
    transposeStep (transposeStep s t b) t' b' =
      transposeStep (transposeStep s t' b') t b := by
  have hm : t % 8 < 8 := Nat.mod_lt _ (by norm_num)
  have hm' : t' % 8 < 8 := Nat.mod_lt _ (by norm_num)
  by_cases hb : t / 8 = t' / 8
  · have hkne : 7 - t % 8 ≠ 7 - t' % 8 := by
      have ht := Nat.div_add_mod t 8
      have ht' := Nat.div_add_mod t' 8
      omega
    by_cases hlen : t / 8 < s.length
    · unfold transposeStep
      rw [← hb]
      rw [getD_set_self _ _ _ _ hlen, getD_set_self _ _ _ _ hlen,
        List.set_set, List.set_set]
      rw [setBitByte_comm _ _ _ (by omega) (by omega) hkne]
    · have h1 : transposeStep s t b = s := by
        unfold transposeStep
        exact set_of_length_le _ _ _ (by omega)
      have h2 : transposeStep s t' b' = s := by
        unfold transposeStep
        rw [← hb]
        exact set_of_length_le _ _ _ (by omega)
      rw [h1, h2, h1]
  · unfold transposeStep
    rw [getD_set_ne _ _ _ _ _ hb, getD_set_ne _ _ _ _ _ (fun hh => hb hh.symm),
      List.set_comm _ _ _ hb]

theorem transposeStep_overwrite (s : Bytes) (t : Nat) (b b' : Bool) :
    transposeStep (transposeStep s t b') t b = transposeStep s t b := by
  have hm : t % 8 < 8 := Nat.mod_lt _ (by norm_num)
  by_cases hlen : t / 8 < s.length
  · unfold transposeStep
    rw [getD_set_self _ _ _ _ hlen, List.set_set,
      setBitByte_overwrite _ _ _ _ (by omega)]
  · have h1 : transposeStep s t b' = s := by
      unfold transposeStep
      exact set_of_length_le _ _ _ (by omega)
    rw [h1]

/-- A transpose over bit range [o, o+l) commutes with a single step at a
    position at or beyond o + l. -/
theorem transpose_sid_transposeStep (s : Bytes) (i o l t : Nat) (b : Bool)
    (ht : o + l ≤ t) :
    transpose_sid (transposeStep s t b) i o l =
      transposeStep (transpose_sid s i o l) t b := by
  induction l generalizing i with
  | zero => simp [transpose_sid]
  | succ l ih =>
    rw [transpose_sid_succ, transpose_sid_succ, ih (i >>> 1) (by omega),
      transposeStep_comm _ _ _ _ _ (by omega)]

/-- Overwrite law: re-transposing the same bit range erases any previous
    transpose over that range. -/
theorem transpose_sid_overwrite (s : Bytes) (i j o l : Nat) :
    transpose_sid (transpose_sid s j o l) i o l = transpose_sid s i o l := by
  induction l generalizing i j with
  | zero => simp [transpose_sid]
  | succ l ih =>
    rw [transpose_sid_succ s j o l, transpose_sid_succ,
      transpose_sid_transposeStep _ _ _ _ _ _ (by omega), ih (i >>> 1) (j >>> 1),
      transposeStep_overwrite, ← transpose_sid_succ]

/-- Bit t of a SID address, counting from the most significant bit of the
    128-bit address: the (7 - t % 8)-th bit of byte s6_addr[t / 8]. -/
def sidBit (sid : Bytes) (t : Nat) : Bool :=
  (sid.getD (t / 8) 0).testBit (7 - t % 8)

theorem sidBit_transposeStep_self (s : Bytes) (t : Nat) (b : Bool)
    (hlen : t / 8 < s.length) :
    sidBit (transposeStep s t b) t = b := by
  have hm : t % 8 < 8 := Nat.mod_lt _ (by norm_num)
  unfold sidBit transposeStep
  rw [getD_set_self _ _ _ _ hlen,
    testBit_setBitByte _ _ _ _ (by omega)]
  simp

theorem sidBit_transposeStep_other (s : Bytes) (t t' : Nat) (b : Bool)
    (h : t ≠ t') :
    sidBit (transposeStep s t b) t' = sidBit s t' := by
  have hm : t % 8 < 8 := Nat.mod_lt _ (by norm_num)
  have hm' : t' % 8 < 8 := Nat.mod_lt _ (by norm_num)
  unfold sidBit transposeStep
  by_cases hb : t / 8 = t' / 8
  · have hkne : (7 - t' % 8) ≠ (7 - t % 8) := by
      have ht := Nat.div_add_mod t 8
      have ht' := Nat.div_add_mod t' 8
      omega
    by_cases hlen : t / 8 < s.length
    · have hj8 : 7 - t' % 8 < 8 := by omega
      rw [hb, getD_set_self _ _ _ _ (hb ▸ hlen),
        testBit_setBitByte _ _ _ _ (by omega)]
      simp [hkne, hj8]
    · rw [set_of_length_le _ _ _ (by omega)]
  · rw [getD_set_ne _ _ _ _ _ hb]

/-- Bit-level characterization of transpose_sid: inside [offset, offset+len)
    the bits are the low len bits of index (most significant of them at the
    lowest offset), outside they are unchanged. -/
theorem transpose_sid_bits (sid : Bytes) (index offset len : Nat)
    (h16 : sid.length = 16) (hr : offset + len ≤ 128) :
    (∀ j, j < len →
        sidBit (transpose_sid sid index offset len) (offset + j)
          = index.testBit (len - 1 - j)) ∧
    (∀ t, t < 128 → (t < offset ∨ offset + len ≤ t) →
        sidBit (transpose_sid sid index offset len) t = sidBit sid t) := by
  induction len generalizing index with
  | zero =>
    constructor
    · intro j hj; omega
    · intro t _ _; rfl
  | succ l ih =>
    obtain ⟨ihin, ihout⟩ := ih (index >>> 1) (by omega)
    rw [transpose_sid_succ]
    constructor
    · intro j hj
      by_cases hjl : j = l
      · subst hjl
        rw [sidBit_transposeStep_self]
        · congr 1
          omega
        · rw [length_transpose_sid, h16]
          omega
      · rw [sidBit_transposeStep_other _ _ _ _ (by omega)]
        rw [ihin j (by omega), Nat.testBit_shiftRight]
        congr 1
        omega
    · intro t ht hside
      rw [sidBit_transposeStep_other _ _ _ _ (by omega)]
      exact ihout t ht (by omega)

/-! ### isisd: SRv6 SID allocation from a locator chunk (isisd/isis_srv6.c) -/

/-- sid_same: equality of two in6_addr values. -/
def sid_same (a b : Bytes) : Bool := a == b

/-- The fields of struct srv6_locator_chunk consulted by the allocator;
    prefix_bytes is the 16-byte address prefix.prefix of the chunk. -/
structure Srv6LocatorChunk where
  prefix_bytes : Bytes
  block_bits_length : Nat
  node_bits_length : Nat
  function_bits_length : Nat
  argument_bits_length : Nat
  flags : Nat
deriving DecidableEq

/-- The two per-area SID catalogues consulted by sid_exist: the value fields
    of area->srv6db.srv6_sids and the SID addresses of the End.X entries of
    area->srv6db.srv6_endx_sids.  (struct srv6_adjacency, the End.X list
    element type, is declared outside these sources; per the spec the
    collision check consults the End.X SID addresses.) -/
structure IsisSrv6Db where
  srv6_sids : List Bytes
  srv6_endx_sids : List Bytes
deriving DecidableEq

/-- isisd/isis_srv6.c sid_exist: true iff the address appears in the area's
    SID list or in its End.X SID list. -/
def sid_exist (area : IsisSrv6Db) (sid : Bytes) : Bool :=
  area.srv6_sids.any (fun s => sid_same s sid) ||
    area.srv6_endx_sids.any (fun s => sid_same s sid)

/-- struct isis_sid_structure. -/
structure IsisSidStructure where
  loc_block_len : Nat
  loc_node_len : Nat
  func_len : Nat
  arg_len : Nat
deriving DecidableEq

/-- struct isis_srv6_sid (the next pointer and flags are not consulted by the
    allocator and are omitted; the locator field keeps the source chunk). -/
structure IsisSrv6Sid where
  value : Bytes
  behavior : Nat
  locator : Srv6LocatorChunk
  sidStructure : IsisSidStructure
deriving DecidableEq

/-- The auto-mode loop of isis_srv6_sid_alloc,
      for (uint32_t i = 1; i < index_max; i++) {
              transpose_sid(&sid->value, i, offset, func_len);
              if (sid_exist(area, &sid->value)) continue;
              alloced = true;  break;
      }
    written with the remaining iteration count (index_max - i) as structural
    fuel; i is the current candidate index and value the accumulator
    sid->value (the transposes accumulate in place, as in the C code).
    Returns the value at which the loop broke with alloced = true, or none
    when the loop ran out (alloced still false). -/
def sid_alloc_search (area : IsisSrv6Db) (offset func_len : Nat) :
    Nat → Nat → Bytes → Option Bytes
  | 0, _, _ => none
  | fuel + 1, i, value =>
    let v := transpose_sid value i offset func_len
    if sid_exist area v then sid_alloc_search area offset func_len fuel (i + 1) v
    else some v

/-- isisd/isis_srv6.c isis_srv6_sid_alloc.  In the index != 0 branch the C
    code never sets `alloced`, so after the branch it always runs into
      if (!alloced) return NULL;
    this is kept faithfully: both arms of the inner conditional yield none. -/
def isis_srv6_sid_alloc (area : IsisSrv6Db) (index : Nat)
    (srv6_locator_chunk : Srv6LocatorChunk) (behavior : Nat) :
    Option IsisSrv6Sid :=
  let offset := srv6_locator_chunk.block_bits_length +
    srv6_locator_chunk.node_bits_length
  let func_len := srv6_locator_chunk.function_bits_length
  let sid : IsisSrv6Sid :=
    { value := srv6_locator_chunk.prefix_bytes
      behavior := behavior
      locator := srv6_locator_chunk
      sidStructure :=
        { loc_block_len := srv6_locator_chunk.block_bits_length
          loc_node_len := srv6_locator_chunk.node_bits_length
          func_len := srv6_locator_chunk.function_bits_length
          arg_len := srv6_locator_chunk.argument_bits_length } }
  if index ≠ 0 then
    let value := transpose_sid sid.value index offset func_len
    if sid_exist area value then none
    else none
  else
    let index_max := (1 <<< func_len) - 1
    match sid_alloc_search area offset func_len (index_max - 1) 1 sid.value with
    | some v => some { sid with value := v }
    | none => none

theorem sid_alloc_search_none (area : IsisSrv6Db) (o f : Nat) :
    ∀ fuel i value p,
      (∀ m, transpose_sid value m o f = transpose_sid p m o f) →
      (∀ k, i ≤ k → k < i + fuel →
          sid_exist area (transpose_sid p k o f) = true) →
      sid_alloc_search area o f fuel i value = none := by
  intro fuel
  induction fuel with
  | zero => intro i value p _ _; rfl
  | succ fuel ih =>
    intro i value p hv hall
    unfold sid_alloc_search
    simp only [hv i, hall i (le_refl i) (by omega), if_true]
    apply ih (i + 1) _ p
    · intro m
      rw [← hv i, transpose_sid_overwrite, hv m]
    · intro k hk1 hk2
      exact hall k (by omega) (by omega)

theorem sid_alloc_search_found (area : IsisSrv6Db) (o f : Nat) :
    ∀ fuel i value p k,
      (∀ m, transpose_sid value m o f = transpose_sid p m o f) →
      i ≤ k → k < i + fuel →
      sid_exist area (transpose_sid p k o f) = false →
      (∀ j, i ≤ j → j < k → sid_exist area (transpose_sid p j o f) = true) →
      sid_alloc_search area o f fuel i value = some (transpose_sid p k o f) := by
  intro fuel
  induction fuel with
  | zero => intro i value p k _ h1 h2 _ _; omega
  | succ fuel ih
  => intro i value p k hv hik hk hfree hbefore
     unfold sid_alloc_search
     by_cases hi : i = k
     · subst hi
       simp [hv i, hfree]
     · simp only [hv i, hbefore i (le_refl i) (by omega), if_true]
       apply ih (i + 1) _ p k
       · intro m
         rw [← hv i, transpose_sid_overwrite, hv m]
       · omega
       · omega
       · exact hfree
       · intro j hj1 hj2
         exact hbefore j (by omega) hj2

/-! ### isisd: End.X SID teardown on adjacency events (isisd/isis_srv6.c) -/

/-- The lists consulted by the adjacency event handlers.  adj_sids is the
    adjacency's SR-MPLS Adjacency-SID list adj->adj_sids; srv6_endx_sids is
    the adjacency's SRv6 End.X SID list adj->srv6_endx_sids.  Entries are
    identified by abstract ids (pointers in C); the two lists hold objects of
    different types, so their id sets are disjoint in any real state. -/
structure IsisAdjacency where
  adj_state_up : Bool
  adj_sids : List Nat
  srv6_endx_sids : List Nat
deriving DecidableEq

/-- The SRv6 state touched by the teardown handlers: the srv6db.enabled flag,
    the area list area->srv6db.srv6_endx_sids, the adjacency, and the log of
    ids passed to isis_zebra_srv6_endx_sid_uninstall. -/
structure SrdbState where
  enabled : Bool
  area_srv6_endx_sids : List Nat
  adj : IsisAdjacency
  uninstalled : List Nat
deriving DecidableEq

/-- isisd/isis_srv6.c srv6_endx_sid_del: uninstall the End.X SID, then
    listnode_delete it from area->srv6db.srv6_endx_sids and from
    adj->srv6_endx_sids (listnode_delete removes the first matching node)
    and free it. -/
def srv6_endx_sid_del (st : SrdbState) (sra : Nat) : SrdbState :=
  { st with
    uninstalled := st.uninstalled ++ [sra]
    area_srv6_endx_sids := st.area_srv6_endx_sids.erase sra
    adj := { st.adj with srv6_endx_sids := st.adj.srv6_endx_sids.erase sra } }

/-- isisd/isis_srv6.c srv6_adj_state_change: returns unchanged unless SRv6 is
    enabled and the adjacency is no longer up; then it iterates
    adj->adj_sids (the SR-MPLS Adjacency-SID list, not the SRv6 End.X list)
    and calls srv6_endx_sid_del on each element. -/
def srv6_adj_state_change (st : SrdbState) : SrdbState :=
  if !st.enabled then st
  else if st.adj.adj_state_up then st
  else st.adj.adj_sids.foldl srv6_endx_sid_del st

/-- isisd/isis_srv6.c srv6_adj_ip_disabled: when SRv6 is enabled, the event
    is for a link-local (not global) address and the family is AF_INET6, it
    calls srv6_endx_sid_del on every element of adj->srv6_endx_sids. -/
def srv6_adj_ip_disabled (st : SrdbState) (family_inet6 global : Bool) :
    SrdbState :=
  if !st.enabled || global || !family_inet6 then st
  else st.adj.srv6_endx_sids.foldl srv6_endx_sid_del st

/-! ### staticd: Static SRv6 SIDs (staticd/static_srv6.c, staticd zebra glue) -/

/-- enum static_srv6_sid_behavior_t (staticd/static_srv6.h). -/
inductive StaticSrv6SidBehavior where
  | UNSPEC | END | END_X | END_T | END_DX2 | END_DX6 | END_DX4
  | END_DT6 | END_DT4 | END_B6 | END_B6_ENCAP | END_BM | END_S
  | END_AS | END_AM | END_BPF | END_DT46 | UDT4 | UDT6 | UDT46 | UN | UA
deriving DecidableEq

/-- Modelled from the spec: the numeric codes of enum seg6local_action_t
    (lib/srv6.h is not among the sources).  Spec section 3 lists the codes
    used on the wire and to the broker: UNSPEC(0), END(1), END_X(2),
    END_T(3), END_DX2(4), END_DX6(5), END_DX4(6), END_DT6(7), END_DT4(8),
    END_B6(9), END_B6_ENCAP(10), END_BM(11), END_S(12), END_AS(13),
    END_AM(14), END_BPF(15), END_DT46(16), UDT4(100), UDT6(101), UDT46(102). -/
def ZEBRA_SEG6_LOCAL_ACTION_UNSPEC : Nat := 0

def ZEBRA_SEG6_LOCAL_ACTION_END : Nat := 1

def ZEBRA_SEG6_LOCAL_ACTION_END_X : Nat := 2

def ZEBRA_SEG6_LOCAL_ACTION_END_T : Nat := 3

def ZEBRA_SEG6_LOCAL_ACTION_END_DX2 : Nat := 4

def ZEBRA_SEG6_LOCAL_ACTION_END_DX6 : Nat := 5

def ZEBRA_SEG6_LOCAL_ACTION_END_DX4 : Nat := 6

def ZEBRA_SEG6_LOCAL_ACTION_END_DT6 : Nat := 7

def ZEBRA_SEG6_LOCAL_ACTION_END_DT4 : Nat := 8

def ZEBRA_SEG6_LOCAL_ACTION_END_B6 : Nat := 9

def ZEBRA_SEG6_LOCAL_ACTION_END_B6_ENCAP : Nat := 10

def ZEBRA_SEG6_LOCAL_ACTION_END_BM : Nat := 11

def ZEBRA_SEG6_LOCAL_ACTION_END_S : Nat := 12

def ZEBRA_SEG6_LOCAL_ACTION_END_AS : Nat := 13

def ZEBRA_SEG6_LOCAL_ACTION_END_AM : Nat := 14

def ZEBRA_SEG6_LOCAL_ACTION_END_BPF : Nat := 15

def ZEBRA_SEG6_LOCAL_ACTION_END_DT46 : Nat := 16

def ZEBRA_SEG6_LOCAL_ACTION_UDT4 : Nat := 100

def ZEBRA_SEG6_LOCAL_ACTION_UDT6 : Nat := 101

def ZEBRA_SEG6_LOCAL_ACTION_UDT46 : Nat := 102

/-- Modelled from the spec: ZEBRA_DEFAULT_SEG6_LOCAL_FLV_LCBLOCK_LEN
    (lib/srv6.h is not among the sources); spec section 4.5 attaches the
    "default locator-block-length 32". -/
def ZEBRA_DEFAULT_SEG6_LOCAL_FLV_LCBLOCK_LEN : Nat := 32

/-- Modelled from the spec: ZEBRA_DEFAULT_SEG6_LOCAL_FLV_LCNODE_FN_LEN
    (lib/srv6.h is not among the sources); spec section 4.5 attaches the
    default "locator-node-function-length 16". -/
def ZEBRA_DEFAULT_SEG6_LOCAL_FLV_LCNODE_FN_LEN : Nat := 16

/-- Modelled from the spec: the NEXT_CSID flavor operation of enum
    seg6local_flavor_op (lib/srv6.h is not among the sources); its numeric
    value does not affect any claim. -/
def ZEBRA_SEG6_LOCAL_FLV_OP_NEXT_CSID : Nat := 4

/-- CHECK_FLAG(V, F): (V) & (F). -/
def CHECK_FLAG (f v : Nat) : Bool := (f &&& v) ≠ 0

/-- SET_FLAG(V, F): (V) |= (F). -/
def SET_FLAG (f v : Nat) : Nat := f ||| v

/-- UNSET_FLAG(V, F): (V) &= ~(F); the flags field is a uint8_t, so the
    complement is taken within 8 bits. -/
def UNSET_FLAG (f v : Nat) : Nat := f &&& (255 ^^^ v)

/-- STATIC_FLAG_SRV6_SID_VALID (1 << 0). -/
def STATIC_FLAG_SRV6_SID_VALID : Nat := 1

/-- STATIC_FLAG_SRV6_SID_SENT_TO_ZEBRA (2 << 0). -/
def STATIC_FLAG_SRV6_SID_SENT_TO_ZEBRA : Nat := 2

/-- in6addr_any, the all-zero IPv6 address. -/
def in6addr_any : Bytes := List.replicate 16 0

/-- struct static_srv6_sid_attributes: optional VRF name, interface name and
    IPv6 adjacency; absent attributes are the empty string / :: . -/
structure StaticSrv6SidAttributes where
  vrf_name : String
  ifname : String
  adj_v6 : Bytes
deriving DecidableEq

/-- struct static_srv6_sid. -/
structure StaticSrv6Sid where
  addr : Bytes
  behavior : StaticSrv6SidBehavior
  attributes : StaticSrv6SidAttributes
  flags : Nat
deriving DecidableEq

/-- An interface known to zebra (struct interface: ifindex and name). -/
structure Intf where
  ifindex : Nat
  name : String
deriving DecidableEq

/-- A VRF known to zebra: identifier, its table id (vrf->data.l.table_id),
    and whether VRF_ACTIVE is set in vrf->status. -/
structure Vrf where
  vrf_id : Nat
  table_id : Nat
  active : Bool
deriving DecidableEq

/-- The collaborator state consulted by the staticd zebra glue:
    if_lookup_by_name, if_lookup_by_index (both in VRF_DEFAULT),
    vrf_lookup_by_name, and whether zclient_send_localsid returns
    ZCLIENT_SEND_FAILURE. -/
structure StaticdEnv where
  ifByName : String → Option Intf
  ifByIndex : Nat → Option Intf
  vrfByName : String → Option Vrf
  send_failure : Bool

/-- struct seg6local_context as filled by the staticd glue ({} zeroes all
    fields; only nh6, table and the flavor fields are ever set). -/
structure Seg6localCtx where
  nh6 : Bytes := List.replicate 16 0
  table : Nat := 0
  flv_ops : Nat := 0
  lcblock_len : Nat := 0
  lcnode_func_len : Nat := 0
deriving DecidableEq

/-- struct srv6_sid_structure passed to zclient_send_localsid. -/
structure Srv6SidStructureMsg where
  block_bits_length : Nat
  node_bits_length : Nat
  function_bits_length : Nat
  argument_bits_length : Nat
deriving DecidableEq

/-- The payload of an ADD_LOCALSID zclient_send_localsid call. -/
structure ZebraLocalSidAdd where
  addr : Bytes
  oif : Nat
  action : Nat
  ctx : Seg6localCtx
  sidStructure : Srv6SidStructureMsg
deriving DecidableEq

/-- A zclient_send_localsid call: the delete form passes action UNSPEC and
    NULL context/structure. -/
inductive StaticZebraMsg where
  | addLocalsid (m : ZebraLocalSidAdd)
  | delLocalsid (addr : Bytes) (oif : Nat)
deriving DecidableEq

/-- The switch converting static_srv6_sid_behavior_t to seg6local_action_t at
    the top of static_zebra_srv6_sid_add; UN and UA map to END and END_X. -/
def static_srv6_sid_behavior_to_action : StaticSrv6SidBehavior → Nat
  | .UNSPEC => ZEBRA_SEG6_LOCAL_ACTION_UNSPEC
  | .END => ZEBRA_SEG6_LOCAL_ACTION_END
  | .END_X => ZEBRA_SEG6_LOCAL_ACTION_END_X
  | .END_T => ZEBRA_SEG6_LOCAL_ACTION_END_T
  | .END_DX2 => ZEBRA_SEG6_LOCAL_ACTION_END_DX2
  | .END_DX6 => ZEBRA_SEG6_LOCAL_ACTION_END_DX6
  | .END_DX4 => ZEBRA_SEG6_LOCAL_ACTION_END_DX4
  | .END_DT6 => ZEBRA_SEG6_LOCAL_ACTION_END_DT6
  | .END_DT4 => ZEBRA_SEG6_LOCAL_ACTION_END_DT4
  | .END_B6 => ZEBRA_SEG6_LOCAL_ACTION_END_B6
  | .END_B6_ENCAP => ZEBRA_SEG6_LOCAL_ACTION_END_B6_ENCAP
  | .END_BM => ZEBRA_SEG6_LOCAL_ACTION_END_BM
  | .END_S => ZEBRA_SEG6_LOCAL_ACTION_END_S
  | .END_AS => ZEBRA_SEG6_LOCAL_ACTION_END_AS
  | .END_AM => ZEBRA_SEG6_LOCAL_ACTION_END_AM
  | .END_BPF => ZEBRA_SEG6_LOCAL_ACTION_END_BPF
  | .END_DT46 => ZEBRA_SEG6_LOCAL_ACTION_END_DT46
  | .UDT4 => ZEBRA_SEG6_LOCAL_ACTION_UDT4
  | .UDT6 => ZEBRA_SEG6_LOCAL_ACTION_UDT6
  | .UDT46 => ZEBRA_SEG6_LOCAL_ACTION_UDT46
  | .UN => ZEBRA_SEG6_LOCAL_ACTION_END
  | .UA => ZEBRA_SEG6_LOCAL_ACTION_END_X

/-- The fallback scan of static_zebra_srv6_sid_add,
      for (int i = 0; i < 256; ++i) {
              ifp = if_lookup_by_index(i, VRF_DEFAULT);
              if (ifp && !strmatch(ifp->name, "lo"))
                      break;
      }
      if (!ifp) ...
    ifp is reassigned on every iteration, so when no index breaks out of the
    loop, ifp holds the result of the last lookup (index 255). -/
def first_non_loopback (env : StaticdEnv) : Option Intf :=
  match (List.range 256).find? (fun i =>
      match env.ifByIndex i with
      | some ifp => ifp.name != "lo"
      | none => false) with
  | some i => env.ifByIndex i
  | none => env.ifByIndex 255

/-- staticd static_zebra_srv6_sid_add: returns the (possibly updated) SID
    and the message handed to zclient_send_localsid, or none when the
    function returns early without sending.  The SENT_TO_ZEBRA flag is set
    after the send call without consulting its result, exactly as in the C
    code (a ZCLIENT_SEND_FAILURE is only logged). -/
def static_zebra_srv6_sid_add (env : StaticdEnv) (sid : StaticSrv6Sid) :
    StaticSrv6Sid × Option StaticZebraMsg :=
  let seg6local_action := static_srv6_sid_behavior_to_action sid.behavior
  let oifFromIfname : Option Nat :=
    if sid.attributes.ifname ≠ "" then
      match env.ifByName sid.attributes.ifname with
      | none => none
      | some ifp => some ifp.ifindex
    else some 0
  match oifFromIfname with
  | none => (sid, none)
  | some oif0 =>
    let ctx0 : Seg6localCtx :=
      if sid.attributes.adj_v6 ≠ in6addr_any then { nh6 := sid.attributes.adj_v6 }
      else {}
    let afterVrf : Option (Seg6localCtx × Nat) :=
      if sid.attributes.vrf_name ≠ "" then
        match env.vrfByName sid.attributes.vrf_name with
        | none => none
        | some vrf =>
          if vrf.active then some ({ ctx0 with table := vrf.table_id }, vrf.vrf_id)
          else none
      else some (ctx0, oif0)
    match afterVrf with
    | none => (sid, none)
    | some (ctx1, oif1) =>
      let afterFallback : Option Nat :=
        if oif1 = 0 then
          match first_non_loopback env with
          | none => none
          | some ifp => some ifp.ifindex
        else some oif1
      match afterFallback with
      | none => (sid, none)
      | some oif =>
        let ctx2 : Seg6localCtx :=
          if sid.behavior = .UN ∨ sid.behavior = .UA then
            { ctx1 with
              flv_ops := ctx1.flv_ops ||| (1 <<< ZEBRA_SEG6_LOCAL_FLV_OP_NEXT_CSID)
              lcblock_len := ZEBRA_DEFAULT_SEG6_LOCAL_FLV_LCBLOCK_LEN
              lcnode_func_len := ZEBRA_DEFAULT_SEG6_LOCAL_FLV_LCNODE_FN_LEN }
          else ctx1
        let seg6local_structure : Srv6SidStructureMsg :=
          { block_bits_length := ZEBRA_DEFAULT_SEG6_LOCAL_FLV_LCBLOCK_LEN
            node_bits_length := ZEBRA_DEFAULT_SEG6_LOCAL_FLV_LCNODE_FN_LEN
            function_bits_length := ZEBRA_DEFAULT_SEG6_LOCAL_FLV_LCNODE_FN_LEN
            argument_bits_length := 0 }
        ({ sid with flags := SET_FLAG sid.flags STATIC_FLAG_SRV6_SID_SENT_TO_ZEBRA },
          some (.addLocalsid
            { addr := sid.addr
              oif := oif
              action := seg6local_action
              ctx := ctx2
              sidStructure := seg6local_structure }))

/-- staticd static_zebra_srv6_sid_del: the SENT_TO_ZEBRA flag is cleared
    after the send call without consulting its result, exactly as in the C
    code (a ZCLIENT_SEND_FAILURE is only logged). -/
def static_zebra_srv6_sid_del (env : StaticdEnv) (sid : StaticSrv6Sid) :
    StaticSrv6Sid × Option StaticZebraMsg :=
  let oifRes : Option Nat :=
    if sid.attributes.vrf_name ≠ "" then
      match env.vrfByName sid.attributes.vrf_name with
      | none => none
      | some vrf => some vrf.vrf_id
    else some 0
  match oifRes with
  | none => (sid, none)
  | some oif =>
    ({ sid with flags := UNSET_FLAG sid.flags STATIC_FLAG_SRV6_SID_SENT_TO_ZEBRA },
      some (.delLocalsid sid.addr oif))

/-- staticd static_zebra_srv6_sid_update. -/
def static_zebra_srv6_sid_update (env : StaticdEnv) (sid : StaticSrv6Sid) :
    StaticSrv6Sid × Option StaticZebraMsg :=
  if CHECK_FLAG sid.flags STATIC_FLAG_SRV6_SID_VALID &&
      !CHECK_FLAG sid.flags STATIC_FLAG_SRV6_SID_SENT_TO_ZEBRA then
    static_zebra_srv6_sid_add env sid
  else if !CHECK_FLAG sid.flags STATIC_FLAG_SRV6_SID_VALID &&
      CHECK_FLAG sid.flags STATIC_FLAG_SRV6_SID_SENT_TO_ZEBRA then
    static_zebra_srv6_sid_del env sid
  else (sid, none)

/-- staticd srv6_sid_alloc: XCALLOC zeroes every field, then the address and
    behavior are filled in; the attributes stay absent. -/
def srv6_sid_alloc (addr : Bytes) (behavior : StaticSrv6SidBehavior) :
    StaticSrv6Sid :=
  { addr := addr
    behavior := behavior
    attributes := { vrf_name := "", ifname := "", adj_v6 := in6addr_any }
    flags := 0 }

/-- staticd static_srv6_sid_lookup over the global srv6_sids list. -/
def static_srv6_sid_lookup (srv6_sids : List StaticSrv6Sid) (sid_addr : Bytes) :
    Option StaticSrv6Sid :=
  srv6_sids.find? (fun sid => sid_same sid.addr sid_addr)

/-- staticd static_srv6_sid_add: listnode_add appends the SID to the global
    list, then static_zebra_srv6_sid_update runs on it (in C it mutates the
    listed SID in place, so the list holds the updated SID). -/
def static_srv6_sid_add (env : StaticdEnv) (srv6_sids : List StaticSrv6Sid)
    (sid : StaticSrv6Sid) : List StaticSrv6Sid × Option StaticZebraMsg :=
  let res := static_zebra_srv6_sid_update env sid
  (srv6_sids ++ [res.1], res.2)

/-- Modelled from the spec: the configuration-ingress operation
    sid_add(address, behavior).  Its CLI/northbound implementation (the
    caller of static_srv6_sid_lookup / srv6_sid_alloc / static_srv6_sid_add)
    is not among the sources; spec section 4.3 states it "creates a
    descriptor with no attributes. Duplicate address returns the existing
    descriptor."  It is modelled as: look the address up; if a descriptor
    exists return it, otherwise allocate one and append it to the table. -/
def sid_add_config (env : StaticdEnv) (srv6_sids : List StaticSrv6Sid)
    (addr : Bytes) (behavior : StaticSrv6SidBehavior) :
    List StaticSrv6Sid × StaticSrv6Sid :=
  match static_srv6_sid_lookup srv6_sids addr with
  | some sid => (srv6_sids, sid)
  | none =>
    let sid := srv6_sid_alloc addr behavior
    ((static_srv6_sid_add env srv6_sids sid).1, sid)

/-! ### zebra: FPM netlink encoder for SRv6-aware routes (zebra_fpm_netlink.c,
    given as src/unnamed/part_004) -/

/-- enum fpm_nh_encap_type_t. -/
def FPM_NH_ENCAP_NONE : Nat := 0

def FPM_NH_ENCAP_VXLAN : Nat := 100

def FPM_NH_ENCAP_SRV6_ROUTE : Nat := 101

def FPM_NH_ENCAP_SRV6_LOCAL_SID : Nat := 102

/-- enum vxlan_encap_info_type_t. -/
def VXLAN_VNI : Nat := 0

/-- The SRv6 local-SID nested attribute codes of the FPM namespace. -/
def FPM_SRV6_LOCALSID_ACTION : Nat := 1

def FPM_SRV6_LOCALSID_NH4 : Nat := 4

def FPM_SRV6_LOCALSID_NH6 : Nat := 5

def FPM_SRV6_LOCALSID_VRFNAME : Nat := 100

def FPM_SRV6_LOCALSID_BLOCK_LEN : Nat := 101

def FPM_SRV6_LOCALSID_NODE_LEN : Nat := 102

def FPM_SRV6_LOCALSID_FUNC_LEN : Nat := 103

def FPM_SRV6_LOCALSID_ARG_LEN : Nat := 104

/-- The SRv6 route-encap nested attribute codes. -/
def FPM_SRV6_ROUTE_VPN_SID : Nat := 100

def FPM_SRV6_ROUTE_ENCAP_SRC_ADDR : Nat := 101

/-- enum srv6_localsid_action_t (only the values the encoder handles). -/
def FPM_SRV6_LOCALSID_ACTION_END : Nat := 1

def FPM_SRV6_LOCALSID_ACTION_END_X : Nat := 2

def FPM_SRV6_LOCALSID_ACTION_END_T : Nat := 3

def FPM_SRV6_LOCALSID_ACTION_END_DX4 : Nat := 6

def FPM_SRV6_LOCALSID_ACTION_END_DT6 : Nat := 7

def FPM_SRV6_LOCALSID_ACTION_END_DT4 : Nat := 8

def FPM_SRV6_LOCALSID_ACTION_END_DT46 : Nat := 16

def FPM_SRV6_LOCALSID_ACTION_UDT4 : Nat := 100

def FPM_SRV6_LOCALSID_ACTION_UDT6 : Nat := 101

def FPM_SRV6_LOCALSID_ACTION_UDT46 : Nat := 102

/-- Top-level route attribute codes from the Linux uapi rtnetlink header
    (not among the sources; the claims use them only as distinct codes). -/
def RTA_DST : Nat := 1

def RTA_OIF : Nat := 4

def RTA_GATEWAY : Nat := 5

def RTA_PRIORITY : Nat := 6

def RTA_PREFSRC : Nat := 7

def RTA_TABLE : Nat := 15

def RTA_ENCAP_TYPE : Nat := 21

def RTA_ENCAP : Nat := 22

def RT_TABLE_UNSPEC : Nat := 0

/-- Address families (Linux uapi). -/
def AF_INET : Nat := 2

def AF_INET6 : Nat := 10

/-- enum nexthop_types_t value NEXTHOP_TYPE_IPV4_IFINDEX (lib/nexthop.h, not
    among the sources; used only as a distinct tag). -/
def NEXTHOP_TYPE_IPV4_IFINDEX : Nat := 3

/-- The payload of one netlink route attribute as handed to the nl_attr_put
    family: nl_attr_put8 / put16 / put32 record the value with its width,
    nl_attr_put records the raw bytes. -/
inductive NlData where
  | u8 (v : Nat)
  | u16 (v : Nat)
  | u32 (v : Nat)
  | raw (b : Bytes)
deriving DecidableEq

/-- A flat attribute: type code and payload. -/
structure NlLeaf where
  rta_type : Nat
  d : NlData
deriving DecidableEq

/-- A top-level attribute: flat, or a nest (nl_attr_nest .. nl_attr_nest_end;
    every nest this encoder emits contains only flat attributes). -/
inductive NlAttr where
  | leaf (rta_type : Nat) (d : NlData)
  | nest (rta_type : Nat) (children : List NlLeaf)
deriving DecidableEq

/-- One struct rtnexthop entry of an RTA_MULTIPATH nest. -/
structure RtnhEntry where
  rtnh_ifindex : Nat
  rtnh_hops : Nat
  gateway : Option Bytes
  attrs : List NlAttr
deriving DecidableEq

/-- struct srv6_localsid_format. -/
structure Srv6LocalsidFormat where
  block_bits_length : Nat
  node_bits_length : Nat
  function_bits_length : Nat
  argument_bits_length : Nat
deriving DecidableEq

/-- struct srv6_localsid_context; vrf_name holds the bytes of the char array
    up to (not including) its terminating NUL. -/
structure Srv6LocalsidContext where
  nh4 : Bytes
  nh6 : Bytes
  vrf_name : Bytes
deriving DecidableEq

/-- struct fpm_nh_encap_info_t: the encap_type discriminator together with
    the union member it selects. -/
inductive FpmNhEncapInfo where
  | noEncap
  | vxlan (vni : Nat)
  | srv6_route (vpn_sid : Bytes) (encap_src_addr : Bytes)
  | srv6_localsid (localsid_action : Nat) (localsid_ctx : Srv6LocalsidContext)
      (localsid_format : Srv6LocalsidFormat)
deriving DecidableEq

/-- struct netlink_nh_info (recursive flag omitted: debug only). -/
structure NetlinkNhInfo where
  weight : Nat
  if_index : Nat
  gateway : Option Bytes
  nh_type : Nat
  encap_info : FpmNhEncapInfo
deriving DecidableEq

/-- struct netlink_route_info. -/
structure NetlinkRouteInfo where
  nlmsg_pid : Nat
  nlmsg_type : Nat
  rtm_type : Nat
  rtm_table : Nat
  rtm_protocol : Nat
  af : Nat
  prefix_bytes : Bytes
  prefixlen : Nat
  metric : Option Nat
  pref_src : Option Bytes
  nhs : List NetlinkNhInfo
deriving DecidableEq

/-- The encoded message: netlink and rtmsg header fields, the top-level
    attribute sequence, and — for the multipath case — the RTA_MULTIPATH
    nest contents (which sit between the head attributes and the optional
    RTA_PREFSRC attribute in the byte stream). -/
structure EncodedRoute where
  nlmsg_pid : Nat
  nlmsg_type : Nat
  rtm_family : Nat
  rtm_dst_len : Nat
  rtm_protocol : Nat
  rtm_type : Nat
  rtm_table : Nat
  attrs : List NlAttr
  multipath : Option (List RtnhEntry)
deriving DecidableEq

/-- af_addr_size: 4 for AF_INET, 16 for AF_INET6 (the C code asserts on any
    other family and falls through to 16). -/
def af_addr_size (af : Nat) : Nat := if af = AF_INET then 4 else 16

/-- ipv4_to_ipv4_mapped_ipv6: the 16-byte ::ffff:a.b.c.d form. -/
def ipv4_to_ipv4_mapped_ipv6 (g : Bytes) : Bytes :=
  List.replicate 10 0 ++ [255, 255] ++ g.take 4

/-- The switch (localsid_action) of the FPM_NH_ENCAP_SRV6_LOCAL_SID case of
    netlink_route_info_encode: the action attribute followed by the
    behavior-dependent context attribute; unknown actions hit the default
    case, which logs and makes the encoder return 0 (modelled as none).
    The VRFNAME payload is strlen(vrf_name) + 1 bytes, i.e. the name bytes
    followed by the terminating NUL. -/
def fpm_localsid_action_attrs (localsid_action : Nat)
    (ctx : Srv6LocalsidContext) : Option (List NlLeaf) :=
  let vrfAttr : NlLeaf :=
    { rta_type := FPM_SRV6_LOCALSID_VRFNAME, d := .raw (ctx.vrf_name ++ [0]) }
  if localsid_action = FPM_SRV6_LOCALSID_ACTION_END then
    some [{ rta_type := FPM_SRV6_LOCALSID_ACTION,
            d := .u32 FPM_SRV6_LOCALSID_ACTION_END }]
  else if localsid_action = FPM_SRV6_LOCALSID_ACTION_END_X then
    some [{ rta_type := FPM_SRV6_LOCALSID_ACTION,
            d := .u32 FPM_SRV6_LOCALSID_ACTION_END_X },
          { rta_type := FPM_SRV6_LOCALSID_NH6, d := .raw (ctx.nh6.take 16) }]
  else if localsid_action = FPM_SRV6_LOCALSID_ACTION_END_T then
    some [{ rta_type := FPM_SRV6_LOCALSID_ACTION,
            d := .u32 FPM_SRV6_LOCALSID_ACTION_END_T }, vrfAttr]
  else if localsid_action = FPM_SRV6_LOCALSID_ACTION_END_DX4 then
    some [{ rta_type := FPM_SRV6_LOCALSID_ACTION,
            d := .u32 FPM_SRV6_LOCALSID_ACTION_END_DX4 },
          { rta_type := FPM_SRV6_LOCALSID_NH4, d := .raw (ctx.nh4.take 4) }]
  else if localsid_action = FPM_SRV6_LOCALSID_ACTION_END_DT6 then
    some [{ rta_type := FPM_SRV6_LOCALSID_ACTION,
            d := .u32 FPM_SRV6_LOCALSID_ACTION_END_DT6 }, vrfAttr]
  else if localsid_action = FPM_SRV6_LOCALSID_ACTION_END_DT4 then
    some [{ rta_type := FPM_SRV6_LOCALSID_ACTION,
            d := .u32 FPM_SRV6_LOCALSID_ACTION_END_DT4 }, vrfAttr]
  else if localsid_action = FPM_SRV6_LOCALSID_ACTION_END_DT46 then
    some [{ rta_type := FPM_SRV6_LOCALSID_ACTION,
            d := .u32 FPM_SRV6_LOCALSID_ACTION_END_DT46 }, vrfAttr]
  else if localsid_action = FPM_SRV6_LOCALSID_ACTION_UDT6 then
    some [{ rta_type := FPM_SRV6_LOCALSID_ACTION,
            d := .u32 FPM_SRV6_LOCALSID_ACTION_UDT6 }, vrfAttr]
  else if localsid_action = FPM_SRV6_LOCALSID_ACTION_UDT4 then
    some [{ rta_type := FPM_SRV6_LOCALSID_ACTION,
            d := .u32 FPM_SRV6_LOCALSID_ACTION_UDT4 }, vrfAttr]
  else if localsid_action = FPM_SRV6_LOCALSID_ACTION_UDT46 then
    some [{ rta_type := FPM_SRV6_LOCALSID_ACTION,
            d := .u32 FPM_SRV6_LOCALSID_ACTION_UDT46 }, vrfAttr]
  else none

/-- The encap attribute block of the single-nexthop case (the switch on
    nhi->encap_info.encap_type). -/
def single_nh_encap_attrs (nhi : NetlinkNhInfo) : Option (List NlAttr) :=
  match nhi.encap_info with
  | .noEncap => some []
  | .vxlan vni =>
    some [.leaf RTA_ENCAP_TYPE (.u16 FPM_NH_ENCAP_VXLAN),
          .nest RTA_ENCAP [{ rta_type := VXLAN_VNI, d := .u32 vni }]]
  | .srv6_localsid a ctx fmt =>
    match fpm_localsid_action_attrs a ctx with
    | none => none
    | some actionAttrs =>
      some [.leaf RTA_ENCAP_TYPE (.u16 FPM_NH_ENCAP_SRV6_LOCAL_SID),
            .nest RTA_ENCAP
              ([{ rta_type := FPM_SRV6_LOCALSID_BLOCK_LEN,
                  d := .u8 fmt.block_bits_length },
                { rta_type := FPM_SRV6_LOCALSID_NODE_LEN,
                  d := .u8 fmt.node_bits_length },
                { rta_type := FPM_SRV6_LOCALSID_FUNC_LEN,
                  d := .u8 fmt.function_bits_length },
                { rta_type := FPM_SRV6_LOCALSID_ARG_LEN,
                  d := .u8 fmt.argument_bits_length }] ++ actionAttrs)]
  | .srv6_route vpn src =>
    some [.leaf RTA_ENCAP_TYPE (.u16 FPM_NH_ENCAP_SRV6_ROUTE),
          .nest RTA_ENCAP
            [{ rta_type := FPM_SRV6_ROUTE_ENCAP_SRC_ADDR, d := .raw (src.take 16) },
             { rta_type := FPM_SRV6_ROUTE_VPN_SID, d := .raw (vpn.take 16) }]]

/-- netlink_route_info_encode (buffer capacity abstracted away; the error
    return 0 of the unsupported-action default case is modelled as none).
    Attribute order follows the nl_attr_put call order of the C code:
    optional RTA_TABLE (table id 256 or more), RTA_DST, optional
    RTA_PRIORITY, then for a single nexthop its gateway / RTA_OIF / encap
    attributes (for two or more nexthops the RTA_MULTIPATH nest instead,
    carrying VxLAN-style encaps only), and finally optional RTA_PREFSRC. -/
def netlink_route_info_encode (ri : NetlinkRouteInfo) : Option EncodedRoute :=
  let bytelen := af_addr_size ri.af
  let tableAttrs : List NlAttr :=
    if ri.rtm_table < 256 then [] else [.leaf RTA_TABLE (.u32 ri.rtm_table)]
  let rtmTableField := if ri.rtm_table < 256 then ri.rtm_table else RT_TABLE_UNSPEC
  let headAttrs := tableAttrs ++
    [.leaf RTA_DST (.raw (ri.prefix_bytes.take bytelen))] ++
    (match ri.metric with
     | some m => [.leaf RTA_PRIORITY (.u32 m)]
     | none => [])
  let prefsrcAttrs : List NlAttr :=
    match ri.pref_src with
    | some ps => [.leaf RTA_PREFSRC (.raw (ps.take bytelen))]
    | none => []
  let base : EncodedRoute :=
    { nlmsg_pid := ri.nlmsg_pid
      nlmsg_type := ri.nlmsg_type
      rtm_family := ri.af
      rtm_dst_len := ri.prefixlen
      rtm_protocol := ri.rtm_protocol
      rtm_type := ri.rtm_type
      rtm_table := rtmTableField
      attrs := []
      multipath := none }
  match ri.nhs with
  | [] => some { base with attrs := headAttrs ++ prefsrcAttrs }
  | [nhi] =>
    let gwAttrs : List NlAttr :=
      match nhi.gateway with
      | some g =>
        if nhi.nh_type = NEXTHOP_TYPE_IPV4_IFINDEX ∧ ri.af = AF_INET6 then
          [.leaf RTA_GATEWAY (.raw (ipv4_to_ipv4_mapped_ipv6 g))]
        else [.leaf RTA_GATEWAY (.raw (g.take bytelen))]
      | none => []
    let oifAttrs : List NlAttr :=
      if nhi.if_index ≠ 0 then [.leaf RTA_OIF (.u32 nhi.if_index)] else []
    match single_nh_encap_attrs nhi with
    | none => none
    | some encapAttrs =>
      some { base with
        attrs := headAttrs ++ gwAttrs ++ oifAttrs ++ encapAttrs ++ prefsrcAttrs }
  | nhs =>
    some { base with
      attrs := headAttrs ++ prefsrcAttrs
      multipath := some (nhs.map (fun nhi =>
        { rtnh_ifindex := nhi.if_index
          rtnh_hops := nhi.weight
          gateway := (match nhi.gateway with
            | some g => some (g.take bytelen)
            | none => none)
          attrs := match nhi.encap_info with
            | .vxlan vni =>
              [.leaf RTA_ENCAP_TYPE (.u16 FPM_NH_ENCAP_VXLAN),
               .nest RTA_ENCAP [{ rta_type := VXLAN_VNI, d := .u32 vni }]]
            | _ => [] })) }

/-! ### Helper lemmas about the staticd glue -/

set_option maxHeartbeats 1600000 in
/-- static_zebra_srv6_sid_add either returns early with the SID untouched
    and no message, or sends one ADD message and sets SENT_TO_ZEBRA. -/
theorem static_zebra_srv6_sid_add_cases (env : StaticdEnv) (sid : StaticSrv6Sid) :
    static_zebra_srv6_sid_add env sid = (sid, none) ∨
    ∃ oif ctx, static_zebra_srv6_sid_add env sid =
      ({ sid with flags := SET_FLAG sid.flags STATIC_FLAG_SRV6_SID_SENT_TO_ZEBRA },
        some (.addLocalsid
          { addr := sid.addr
            oif := oif
            action := static_srv6_sid_behavior_to_action sid.behavior
            ctx := ctx
            sidStructure :=
              { block_bits_length := ZEBRA_DEFAULT_SEG6_LOCAL_FLV_LCBLOCK_LEN
                node_bits_length := ZEBRA_DEFAULT_SEG6_LOCAL_FLV_LCNODE_FN_LEN
                function_bits_length := ZEBRA_DEFAULT_SEG6_LOCAL_FLV_LCNODE_FN_LEN
                argument_bits_length := 0 } })) := by
  unfold static_zebra_srv6_sid_add
  simp only []
  repeat' split
  all_goals first
    | exact Or.inl rfl
    | exact Or.inr ⟨_, _, rfl⟩

/-- static_zebra_srv6_sid_del either returns early with the SID untouched
    and no message, or sends one DEL message and clears SENT_TO_ZEBRA. -/
theorem static_zebra_srv6_sid_del_cases (env : StaticdEnv) (sid : StaticSrv6Sid) :
    static_zebra_srv6_sid_del env sid = (sid, none) ∨
    ∃ oif, static_zebra_srv6_sid_del env sid =
      ({ sid with flags := UNSET_FLAG sid.flags STATIC_FLAG_SRV6_SID_SENT_TO_ZEBRA },
        some (.delLocalsid sid.addr oif)) := by
  unfold static_zebra_srv6_sid_del
  simp only []
  repeat' split
  all_goals first
    | exact Or.inl rfl
    | exact Or.inr ⟨_, rfl⟩

theorem check_flag_set_sent (f : Nat) :
    CHECK_FLAG (SET_FLAG f STATIC_FLAG_SRV6_SID_SENT_TO_ZEBRA)
      STATIC_FLAG_SRV6_SID_SENT_TO_ZEBRA = true := by
  have hbit : ((f ||| 2) &&& 2).testBit 1 = true := by
    rw [Nat.testBit_land, Nat.testBit_lor]
    have h2 : (2 : Nat).testBit 1 = true := by decide
    simp [h2]
  simp only [CHECK_FLAG, SET_FLAG, STATIC_FLAG_SRV6_SID_SENT_TO_ZEBRA, ne_eq,
    decide_eq_true_eq]
  intro h0
  rw [h0] at hbit
  simp at hbit

theorem check_flag_unset_sent (f : Nat) :
    CHECK_FLAG (UNSET_FLAG f STATIC_FLAG_SRV6_SID_SENT_TO_ZEBRA)
      STATIC_FLAG_SRV6_SID_SENT_TO_ZEBRA = false := by
  have hz : (f &&& (255 ^^^ 2)) &&& 2 = 0 := by
    apply Nat.eq_of_testBit_eq
    intro j
    rw [Nat.testBit_land, Nat.testBit_land, Nat.testBit_xor, Nat.zero_testBit]
    by_cases hj : j = 1
    · subst hj
      have h255 : (255 : Nat).testBit 1 = true := by decide
      have h2 : (2 : Nat).testBit 1 = true := by decide
      simp [h255, h2]
    · have h2 : (2 : Nat).testBit j = false := by
        have h21 : (2 : Nat) = 2 ^ 1 := by norm_num
        have hne : (1 : Nat) ≠ j := fun h => hj h.symm
        rw [h21]
        exact Nat.testBit_two_pow_of_ne hne
      simp [h2]
  have hz' : f &&& 253 &&& 2 = 0 := by
    have h253 : (255 ^^^ 2 : Nat) = 253 := by decide
    rwa [h253] at hz
  simp [CHECK_FLAG, UNSET_FLAG, STATIC_FLAG_SRV6_SID_SENT_TO_ZEBRA, hz, hz']

theorem static_zebra_srv6_sid_update_addr (env : StaticdEnv) (sid : StaticSrv6Sid) :
    (static_zebra_srv6_sid_update env sid).1.addr = sid.addr := by
  unfold static_zebra_srv6_sid_update
  split
  · rcases static_zebra_srv6_sid_add_cases env sid with hc | ⟨oif, ctx, hc⟩ <;>
      rw [hc]
  · split
    · rcases static_zebra_srv6_sid_del_cases env sid with hc | ⟨oif, hc⟩ <;>
        rw [hc]
    · rfl

/-! ### Concrete fixtures used by witnesses and counterexamples -/

/-- A broker environment with no interfaces and no VRFs. -/
def envNull : StaticdEnv :=
  { ifByName := fun _ => none
    ifByIndex := fun _ => none
    vrfByName := fun _ => none
    send_failure := false }

/-- A broker environment with one non-loopback interface eth0 (ifindex 5,
    listed at interface index 1) and one active VRF red (id 3, table 100),
    whose socket sends fail. -/
def envEth0Fail : StaticdEnv :=
  { ifByName := fun s =>
      if s = "eth0" then some { ifindex := 5, name := "eth0" } else none
    ifByIndex := fun i =>
      if i = 1 then some { ifindex := 5, name := "eth0" } else none
    vrfByName := fun s =>
      if s = "red" then some { vrf_id := 3, table_id := 100, active := true } else none
    send_failure := true }

/-- A valid, not-yet-sent static SID fc00::1 with behavior End and no
    attributes. -/
def sidEndValid : StaticSrv6Sid :=
  { addr := 252 :: List.replicate 14 0 ++ [1]
    behavior := .END
    attributes := { vrf_name := "", ifname := "", adj_v6 := in6addr_any }
    flags := STATIC_FLAG_SRV6_SID_VALID }

/-- The same SID in the sent-but-no-longer-valid state. -/
def sidEndSent : StaticSrv6Sid :=
  { sidEndValid with flags := STATIC_FLAG_SRV6_SID_SENT_TO_ZEBRA }

/-- The same SID with both flags set. -/
def sidBothFlags : StaticSrv6Sid :=
  { sidEndValid with flags := 3 }

/-- A valid static SID fc00::2 with behavior End.DT6 carrying both an
    explicit interface attribute (eth0) and a VRF attribute (red). -/
def sidDT6Both : StaticSrv6Sid :=
  { addr := 252 :: List.replicate 14 0 ++ [2]
    behavior := .END_DT6
    attributes := { vrf_name := "red", ifname := "eth0", adj_v6 := in6addr_any }
    flags := STATIC_FLAG_SRV6_SID_VALID }

/-! ### The claims -/

/-- C1: for every Static SID, static_zebra_srv6_sid_update runs the
    ADD_LOCALSID operation exactly when VALID is set and SENT_TO_ZEBRA is
    clear, runs the DEL_LOCALSID operation exactly when VALID is clear and
    SENT_TO_ZEBRA is set, and for every other combination of the two flags
    (both set or both clear) does nothing: the SID and all its flags are
    returned unchanged and no message is emitted. -/
theorem static_zebra_srv6_sid_update_dispatch (env : StaticdEnv)
    (sid : StaticSrv6Sid) :
    ((CHECK_FLAG sid.flags STATIC_FLAG_SRV6_SID_VALID = true ∧
        CHECK_FLAG sid.flags STATIC_FLAG_SRV6_SID_SENT_TO_ZEBRA = false) →
      static_zebra_srv6_sid_update env sid = static_zebra_srv6_sid_add env sid) ∧
    ((CHECK_FLAG sid.flags STATIC_FLAG_SRV6_SID_VALID = false ∧
        CHECK_FLAG sid.flags STATIC_FLAG_SRV6_SID_SENT_TO_ZEBRA = true) →
      static_zebra_srv6_sid_update env sid = static_zebra_srv6_sid_del env sid) ∧
    ((CHECK_FLAG sid.flags STATIC_FLAG_SRV6_SID_VALID =
        CHECK_FLAG sid.flags STATIC_FLAG_SRV6_SID_SENT_TO_ZEBRA) →
      static_zebra_srv6_sid_update env sid = (sid, none)) := by
  refine ⟨?_, ?_, ?_⟩
  · rintro ⟨h1, h2⟩
    simp [static_zebra_srv6_sid_update, h1, h2]
  · rintro ⟨h1, h2⟩
    simp [static_zebra_srv6_sid_update, h1, h2]
  · intro h
    cases hv : CHECK_FLAG sid.flags STATIC_FLAG_SRV6_SID_VALID <;>
      rw [hv] at h <;>
      simp [static_zebra_srv6_sid_update, hv, ← h]

theorem static_zebra_srv6_sid_update_dispatch_witness :
    static_zebra_srv6_sid_update envNull sidBothFlags = (sidBothFlags, none) ∧
    static_zebra_srv6_sid_update envEth0Fail sidEndValid =
      static_zebra_srv6_sid_add envEth0Fail sidEndValid ∧
    static_zebra_srv6_sid_update envEth0Fail sidEndSent =
      static_zebra_srv6_sid_del envEth0Fail sidEndSent :=
  ⟨(static_zebra_srv6_sid_update_dispatch envNull sidBothFlags).2.2 (by decide),
   (static_zebra_srv6_sid_update_dispatch envEth0Fail sidEndValid).1
     ⟨by decide, by decide⟩,
   (static_zebra_srv6_sid_update_dispatch envEth0Fail sidEndSent).2.1
     ⟨by decide, by decide⟩⟩

/-- C2: for a 16-byte SID address and a bit range with
    offset + len ≤ 128, transpose_sid overwrites exactly the len bits
    starting at bit-offset offset (counted from the most significant bit of
    the address) with the lowest len bits of index, the most significant of
    those len bits landing at the lowest offset; every bit outside
    [offset, offset + len) is unchanged, and remains unchanged under any
    further transpose over the same range. -/
theorem transpose_sid_correct (sid : Bytes) (index offset len : Nat)
    (h16 : sid.length = 16) (hr : offset + len ≤ 128) :
    (∀ j, j < len →
        sidBit (transpose_sid sid index offset len) (offset + j)
          = index.testBit (len - 1 - j)) ∧
    (∀ t, t < 128 → (t < offset ∨ offset + len ≤ t) →
        sidBit (transpose_sid sid index offset len) t = sidBit sid t) ∧
    (∀ index2 t, t < 128 → (t < offset ∨ offset + len ≤ t) →
        sidBit (transpose_sid (transpose_sid sid index offset len) index2
          offset len) t = sidBit sid t) := by
  obtain ⟨hin, hout⟩ := transpose_sid_bits sid index offset len h16 hr
  refine ⟨hin, hout, ?_⟩
  intro index2 t ht hside
  obtain ⟨_, hout2⟩ := transpose_sid_bits (transpose_sid sid index offset len)
    index2 offset len (by rw [length_transpose_sid, h16]) hr
  rw [hout2 t ht hside, hout t ht hside]

theorem transpose_sid_correct_witness :
    sidBit (transpose_sid (List.replicate 16 0) 5 3 4) (3 + 0)
        = Nat.testBit 5 (4 - 1 - 0) ∧
    sidBit (transpose_sid (List.replicate 16 0) 5 3 4) 0
        = sidBit (List.replicate 16 0) 0 :=
  ⟨(transpose_sid_correct (List.replicate 16 0) 5 3 4 (by decide) (by decide)).1
      0 (by decide),
   (transpose_sid_correct (List.replicate 16 0) 5 3 4 (by decide) (by decide)).2.1
      0 (by decide) (Or.inl (by decide))⟩

/-- C5 (corrected): a counterexample to the claim as stated.  In an
    environment whose sends fail (send_failure = true), installing the valid
    SID still emits the ADD message and leaves SENT_TO_ZEBRA set (the claim
    says it stays clear), and removing the sent SID still emits the DEL
    message and leaves SENT_TO_ZEBRA clear (the claim says it stays set). -/
theorem static_zebra_srv6_sid_send_failure_counterexample :
    envEth0Fail.send_failure = true ∧
    ((static_zebra_srv6_sid_add envEth0Fail sidEndValid).2.isSome = true ∧
      CHECK_FLAG (static_zebra_srv6_sid_add envEth0Fail sidEndValid).1.flags
        STATIC_FLAG_SRV6_SID_SENT_TO_ZEBRA = true) ∧
    ((static_zebra_srv6_sid_del envEth0Fail sidEndSent).2.isSome = true ∧
      CHECK_FLAG (static_zebra_srv6_sid_del envEth0Fail sidEndSent).1.flags
        STATIC_FLAG_SRV6_SID_SENT_TO_ZEBRA = false) :=
  ⟨rfl, by decide, by decide⟩

/-- C5 (amended): the flag updates do not depend on the send outcome: in
    every environment (sends failing or not), whenever
    static_zebra_srv6_sid_add reaches the send (a message is emitted) the
    SID is marked SENT_TO_ZEBRA — even when the send fails, which is only
    logged — and whenever static_zebra_srv6_sid_del reaches the send the
    SENT_TO_ZEBRA flag is cleared even when the send fails; an early return
    (no message sent) leaves the SID, including its flags, unchanged. -/
theorem static_zebra_srv6_sid_send_failure_flags (env : StaticdEnv)
    (sid : StaticSrv6Sid) :
    (∀ sid' msg, static_zebra_srv6_sid_add env sid = (sid', some msg) →
        CHECK_FLAG sid'.flags STATIC_FLAG_SRV6_SID_SENT_TO_ZEBRA = true) ∧
    (∀ sid' msg, static_zebra_srv6_sid_del env sid = (sid', some msg) →
        CHECK_FLAG sid'.flags STATIC_FLAG_SRV6_SID_SENT_TO_ZEBRA = false) ∧
    (∀ sid', static_zebra_srv6_sid_add env sid = (sid', none) → sid' = sid) ∧
    (∀ sid', static_zebra_srv6_sid_del env sid = (sid', none) → sid' = sid) := by
  refine ⟨?_, ?_, ?_, ?_⟩
  · intro sid' msg h
    rcases static_zebra_srv6_sid_add_cases env sid with hc | ⟨oif, ctx, hc⟩
    · rw [hc] at h
      simp at h
    · rw [hc] at h
      injection h with h1 h2
      rw [← h1]
      exact check_flag_set_sent sid.flags
  · intro sid' msg h
    rcases static_zebra_srv6_sid_del_cases env sid with hc | ⟨oif, hc⟩
    · rw [hc] at h
      simp at h
    · rw [hc] at h
      injection h with h1 h2
      rw [← h1]
      exact check_flag_unset_sent sid.flags
  · intro sid' h
    rcases static_zebra_srv6_sid_add_cases env sid with hc | ⟨oif, ctx, hc⟩
    · rw [hc] at h
      injection h with h1 h2
      exact h1.symm
    · rw [hc] at h
      simp at h
  · intro sid' h
    rcases static_zebra_srv6_sid_del_cases env sid with hc | ⟨oif, hc⟩
    · rw [hc] at h
      injection h with h1 h2
      exact h1.symm
    · rw [hc] at h
      simp at h

theorem static_zebra_srv6_sid_send_failure_flags_witness :
    CHECK_FLAG sidBothFlags.flags STATIC_FLAG_SRV6_SID_SENT_TO_ZEBRA = true :=
  (static_zebra_srv6_sid_send_failure_flags envEth0Fail sidEndValid).1
    sidBothFlags
    (.addLocalsid
      { addr := sidEndValid.addr, oif := 5,
        action := ZEBRA_SEG6_LOCAL_ACTION_END, ctx := {},
        sidStructure :=
          { block_bits_length := 32, node_bits_length := 16,
            function_bits_length := 16, argument_bits_length := 0 } })
    (by decide)

/-- C6 (corrected): a counterexample to the claimed precedence.  For a SID
    carrying both an explicit interface attribute (eth0, ifindex 5) and a
    VRF attribute (red, id 3), the ADD message carries the VRF identifier 3
    as outgoing interface, not the ifindex 5 the claim requires. -/
theorem static_zebra_srv6_sid_add_oif_counterexample :
    (static_zebra_srv6_sid_add envEth0Fail sidDT6Both).2 =
      some (.addLocalsid
        { addr := sidDT6Both.addr, oif := 3,
          action := ZEBRA_SEG6_LOCAL_ACTION_END_DT6,
          ctx := { table := 100 },
          sidStructure :=
            { block_bits_length := 32, node_bits_length := 16,
              function_bits_length := 16, argument_bits_length := 0 } }) ∧
    envEth0Fail.ifByName sidDT6Both.attributes.ifname =
      some { ifindex := 5, name := "eth0" } ∧
    (3 : Nat) ≠ 5 :=
  ⟨by decide, by decide, by decide⟩

/-- C6 (amended): the outgoing-interface choice of the ADD_LOCALSID, with
    the VRF attribute taking precedence over the explicit interface
    attribute: when a VRF attribute names an active VRF with nonzero
    identifier (and any interface attribute, if present, resolves), the
    VRF identifier is used; otherwise, with no VRF attribute, the interface
    named by the explicit interface attribute is used when it resolves to a
    nonzero ifindex; with neither attribute, the first non-loopback
    interface found by the index scan is used, and when that scan yields no
    interface at all, no ADD is sent and the SID is returned unchanged
    (valid but not sent). -/
theorem static_zebra_srv6_sid_add_oif_selection (env : StaticdEnv)
    (sid : StaticSrv6Sid) :
    (∀ vrf, sid.attributes.vrf_name ≠ "" →
        env.vrfByName sid.attributes.vrf_name = some vrf →
        vrf.active = true → vrf.vrf_id ≠ 0 →
        (sid.attributes.ifname = "" ∨
          ∃ ifp, env.ifByName sid.attributes.ifname = some ifp) →
        ∃ m, (static_zebra_srv6_sid_add env sid).2 = some (.addLocalsid m) ∧
          m.oif = vrf.vrf_id) ∧
    (∀ ifp, sid.attributes.vrf_name = "" → sid.attributes.ifname ≠ "" →
        env.ifByName sid.attributes.ifname = some ifp → ifp.ifindex ≠ 0 →
        ∃ m, (static_zebra_srv6_sid_add env sid).2 = some (.addLocalsid m) ∧
          m.oif = ifp.ifindex) ∧
    (sid.attributes.vrf_name = "" → sid.attributes.ifname = "" →
        (∀ ifp, first_non_loopback env = some ifp →
            ∃ m, (static_zebra_srv6_sid_add env sid).2 =
                some (.addLocalsid m) ∧ m.oif = ifp.ifindex) ∧
        (first_non_loopback env = none →
            static_zebra_srv6_sid_add env sid = (sid, none))) := by
  refine ⟨?_, ?_, ?_⟩
  · intro vrf hvn hlk hact hid hifok
    by_cases hifE : sid.attributes.ifname = ""
    · simp [static_zebra_srv6_sid_add, hifE, hvn, hlk, hact, hid]
    · rcases hifok with hif | ⟨ifp, hif⟩
      · exact absurd hif hifE
      · simp [static_zebra_srv6_sid_add, hifE, hif, hvn, hlk, hact, hid]
  · intro ifp hv0 hifn hlk hidx
    simp [static_zebra_srv6_sid_add, hv0, hifn, hlk, hidx]
  · intro hv0 hif0
    constructor
    · intro ifp hf
      simp [static_zebra_srv6_sid_add, hv0, hif0, hf]
    · intro hf
      simp [static_zebra_srv6_sid_add, hv0, hif0, hf]

theorem static_zebra_srv6_sid_add_oif_selection_witness :
    ∃ m, (static_zebra_srv6_sid_add envEth0Fail sidDT6Both).2 =
        some (.addLocalsid m) ∧
      m.oif = ({ vrf_id := 3, table_id := 100, active := true } : Vrf).vrf_id :=
  (static_zebra_srv6_sid_add_oif_selection envEth0Fail sidDT6Both).1
    { vrf_id := 3, table_id := 100, active := true }
    (by decide) (by decide) rfl (by decide)
    (Or.inr ⟨{ ifindex := 5, name := "eth0" }, by decide⟩)

/-- C9: at most one Static SID descriptor per 128-bit address.  The
    configuration-ingress add keeps the address-uniqueness invariant of the
    global srv6_sids table, and adding an address already present returns
    the existing descriptor with the table unchanged instead of creating a
    second descriptor. -/
theorem static_srv6_sid_table_unique (env : StaticdEnv)
    (srv6_sids : List StaticSrv6Sid) (addr : Bytes)
    (behavior : StaticSrv6SidBehavior)
    (huniq : srv6_sids.Pairwise (fun a b => a.addr ≠ b.addr)) :
    (sid_add_config env srv6_sids addr behavior).1.Pairwise
        (fun a b => a.addr ≠ b.addr) ∧
    (∀ sid, static_srv6_sid_lookup srv6_sids addr = some sid →
        sid_add_config env srv6_sids addr behavior = (srv6_sids, sid)) := by
  constructor
  · cases hl : static_srv6_sid_lookup srv6_sids addr with
    | some s => simp [sid_add_config, hl, huniq]
    | none =>
      simp only [sid_add_config, hl, static_srv6_sid_add]
      rw [List.pairwise_append]
      refine ⟨huniq, by simp, ?_⟩
      intro a ha b hb
      simp only [List.mem_singleton] at hb
      subst hb
      have hfind := List.find?_eq_none.mp hl a ha
      have hne : a.addr ≠ addr := by
        intro hEq
        apply hfind
        simp [sid_same, hEq]
      rw [static_zebra_srv6_sid_update_addr]
      exact hne
  · intro sid hl
    simp [sid_add_config, hl]

theorem static_srv6_sid_table_unique_witness :
    (sid_add_config envNull [] (252 :: List.replicate 14 0 ++ [1])
        .END).1.Pairwise (fun a b => a.addr ≠ b.addr) :=
  (static_srv6_sid_table_unique envNull [] (252 :: List.replicate 14 0 ++ [1])
    .END List.Pairwise.nil).1

/-- C10: every ADD_LOCALSID message carries the fixed SID structure
    block_len 32, node_len 16, function_len 16, argument_len 0, for every
    environment, behavior and attribute set; the structure is never derived
    from a locator or from operator input. -/
theorem static_zebra_srv6_sid_add_fixed_structure (env : StaticdEnv)
    (sid : StaticSrv6Sid) :
    ∀ sid' msg, static_zebra_srv6_sid_add env sid = (sid', some msg) →
      ∃ m, msg = .addLocalsid m ∧
        m.sidStructure =
          { block_bits_length := 32, node_bits_length := 16,
            function_bits_length := 16, argument_bits_length := 0 } := by
  intro sid' msg h
  rcases static_zebra_srv6_sid_add_cases env sid with hc | ⟨oif, ctx, hc⟩
  · rw [hc] at h
    simp at h
  · rw [hc] at h
    injection h with h1 h2
    injection h2 with h3
    exact ⟨_, h3.symm, rfl⟩

theorem static_zebra_srv6_sid_add_fixed_structure_witness :
    ∃ m, (StaticZebraMsg.addLocalsid
        { addr := sidEndValid.addr, oif := 5,
          action := ZEBRA_SEG6_LOCAL_ACTION_END, ctx := {},
          sidStructure :=
            { block_bits_length := 32, node_bits_length := 16,
              function_bits_length := 16, argument_bits_length := 0 } }) =
        .addLocalsid m ∧
      m.sidStructure =
        { block_bits_length := 32, node_bits_length := 16,
          function_bits_length := 16, argument_bits_length := 0 } :=
  static_zebra_srv6_sid_add_fixed_structure envEth0Fail sidEndValid
    sidBothFlags
    (.addLocalsid
      { addr := sidEndValid.addr, oif := 5,
        action := ZEBRA_SEG6_LOCAL_ACTION_END, ctx := {},
        sidStructure :=
          { block_bits_length := 32, node_bits_length := 16,
            function_bits_length := 16, argument_bits_length := 0 } })
    (by decide)

/-! ### isisd fixtures and claims -/

/-- An area with no SIDs and no End.X SIDs. -/
def areaE : IsisSrv6Db := { srv6_sids := [], srv6_endx_sids := [] }

/-- A locator chunk fc00::/48 with structure (32, 16, 16, 0). -/
def chunkC4 : Srv6LocatorChunk :=
  { prefix_bytes := 252 :: List.replicate 15 0
    block_bits_length := 32
    node_bits_length := 16
    function_bits_length := 16
    argument_bits_length := 0
    flags := 0 }

/-- A locator chunk with a one-bit function part. -/
def chunkF1 : Srv6LocatorChunk :=
  { prefix_bytes := List.replicate 16 0
    block_bits_length := 0
    node_bits_length := 0
    function_bits_length := 1
    argument_bits_length := 0
    flags := 0 }

/-- A locator chunk with a two-bit function part. -/
def chunkF2 : Srv6LocatorChunk :=
  { prefix_bytes := List.replicate 16 0
    block_bits_length := 0
    node_bits_length := 0
    function_bits_length := 2
    argument_bits_length := 0
    flags := 0 }

/-- C4 (code bug): index-based allocation always fails.  With an empty area
    and operator index 1, the transposed address is not in use, yet
    isis_srv6_sid_alloc returns no SID: the index != 0 branch never sets
    `alloced`, so the function always falls into `if (!alloced) return NULL`.
    The claim (and the function's own comment, "if index != 0: try to
    allocate as index-mode") requires the SID to be returned here. -/
theorem isis_srv6_sid_alloc_index_mode_bug :
    isis_srv6_sid_alloc areaE 1 chunkC4 ZEBRA_SEG6_LOCAL_ACTION_END_X = none ∧
    sid_exist areaE (transpose_sid chunkC4.prefix_bytes 1
      (chunkC4.block_bits_length + chunkC4.node_bits_length)
      chunkC4.function_bits_length) = false := by
  decide

/-- C3 (corrected): a counterexample to the claimed search range.  For a
    one-bit function part the claim's range 1..2^1 - 1 contains index 1,
    which does not collide in the empty area, so the claim requires a
    successful allocation; the loop bound `i < index_max` excludes the top
    index and the allocation fails. -/
theorem isis_srv6_sid_alloc_auto_range_counterexample :
    isis_srv6_sid_alloc areaE 0 chunkF1 ZEBRA_SEG6_LOCAL_ACTION_END_X = none ∧
    sid_exist areaE (transpose_sid chunkF1.prefix_bytes 1
      (chunkF1.block_bits_length + chunkF1.node_bits_length)
      chunkF1.function_bits_length) = false ∧
    (1 : Nat) ≤ (1 <<< chunkF1.function_bits_length) - 1 := by
  decide

/-- C3 (amended): auto-mode allocation (index 0) searches candidate indices
    1 through 2^function_bits_length - 2 inclusive (the loop runs while
    i < index_max with index_max = 2^function_bits_length - 1), transposing
    each candidate into the chunk prefix at offset block_len + node_len and
    rejecting every candidate whose address is already present among the
    area's SIDs or End.X SIDs; the SID returned is the one of the smallest
    non-colliding index, and the allocation fails exactly when every index
    in that range collides. -/
theorem isis_srv6_sid_alloc_auto_smallest (area : IsisSrv6Db)
    (chunk : Srv6LocatorChunk) (behavior : Nat) :
    ((∀ k, 1 ≤ k → k < (1 <<< chunk.function_bits_length) - 1 →
        sid_exist area (transpose_sid chunk.prefix_bytes k
          (chunk.block_bits_length + chunk.node_bits_length)
          chunk.function_bits_length) = true) →
      isis_srv6_sid_alloc area 0 chunk behavior = none) ∧
    (∀ k, 1 ≤ k → k < (1 <<< chunk.function_bits_length) - 1 →
      sid_exist area (transpose_sid chunk.prefix_bytes k
        (chunk.block_bits_length + chunk.node_bits_length)
        chunk.function_bits_length) = false →
      (∀ j, 1 ≤ j → j < k →
        sid_exist area (transpose_sid chunk.prefix_bytes j
          (chunk.block_bits_length + chunk.node_bits_length)
          chunk.function_bits_length) = true) →
      isis_srv6_sid_alloc area 0 chunk behavior =
        some { value := transpose_sid chunk.prefix_bytes k
                 (chunk.block_bits_length + chunk.node_bits_length)
                 chunk.function_bits_length
               behavior := behavior
               locator := chunk
               sidStructure :=
                 { loc_block_len := chunk.block_bits_length
                   loc_node_len := chunk.node_bits_length
                   func_len := chunk.function_bits_length
                   arg_len := chunk.argument_bits_length } }) := by
  constructor
  · intro hall
    unfold isis_srv6_sid_alloc
    simp only []
    rw [if_neg (by simp : ¬(0 ≠ 0))]
    rw [sid_alloc_search_none area
      (chunk.block_bits_length + chunk.node_bits_length)
      chunk.function_bits_length ((1 <<< chunk.function_bits_length) - 1 - 1) 1
      chunk.prefix_bytes chunk.prefix_bytes (fun m => rfl)
      (fun k h1 h2 => hall k h1 (by omega))]
  · intro k h1 h2 hfree hbefore
    unfold isis_srv6_sid_alloc
    simp only []
    rw [if_neg (by simp : ¬(0 ≠ 0))]
    rw [sid_alloc_search_found area
      (chunk.block_bits_length + chunk.node_bits_length)
      chunk.function_bits_length ((1 <<< chunk.function_bits_length) - 1 - 1) 1
      chunk.prefix_bytes chunk.prefix_bytes k (fun m => rfl) h1 (by omega)
      hfree (fun j hj1 hj2 => hbefore j hj1 hj2)]

theorem isis_srv6_sid_alloc_auto_smallest_witness :
    isis_srv6_sid_alloc areaE 0 chunkF2 ZEBRA_SEG6_LOCAL_ACTION_END_X =
      some { value := transpose_sid chunkF2.prefix_bytes 1
               (chunkF2.block_bits_length + chunkF2.node_bits_length)
               chunkF2.function_bits_length
             behavior := ZEBRA_SEG6_LOCAL_ACTION_END_X
             locator := chunkF2
             sidStructure :=
               { loc_block_len := chunkF2.block_bits_length
                 loc_node_len := chunkF2.node_bits_length
                 func_len := chunkF2.function_bits_length
                 arg_len := chunkF2.argument_bits_length } } :=
  (isis_srv6_sid_alloc_auto_smallest areaE chunkF2
      ZEBRA_SEG6_LOCAL_ACTION_END_X).2 1 (by decide) (by decide) (by decide)
    (by intro j hj1 hj2; omega)

/-- The adjacency-down failing input for C8: SRv6 enabled, the adjacency is
    down, its SR-MPLS adj_sids list is empty, and it holds one End.X SID
    (id 7) that is also on the area list. -/
def adjDownState : SrdbState :=
  { enabled := true
    area_srv6_endx_sids := [7]
    adj := { adj_state_up := false, adj_sids := [], srv6_endx_sids := [7] }
    uninstalled := [] }

/-- C8 (code bug): when the adjacency goes down, srv6_adj_state_change
    iterates adj->adj_sids — the SR-MPLS Adjacency-SID list — instead of
    adj->srv6_endx_sids, so the End.X SID survives: the state is returned
    unchanged and the adjacency still holds End.X SID 7, although the
    function's own comment says it removes all SRv6 End.X SIDs of an
    adjacency that is going down.  The IPv6-disabled handler, which iterates
    the correct list, does tear the End.X SID down on the same state. -/
theorem srv6_adj_state_change_endx_leak :
    srv6_adj_state_change adjDownState = adjDownState ∧
    adjDownState.adj.srv6_endx_sids = [7] ∧
    (srv6_adj_ip_disabled adjDownState true false).adj.srv6_endx_sids = [] ∧
    (srv6_adj_ip_disabled adjDownState true false).area_srv6_endx_sids = [] := by
  decide

/-! ### C7: the FPM encoder claims -/

theorem fpm_localsid_action_attrs_eq (a : Nat) (ctx : Srv6LocalsidContext)
    (ha : a ∈ ([FPM_SRV6_LOCALSID_ACTION_END_X, FPM_SRV6_LOCALSID_ACTION_END_T,
        FPM_SRV6_LOCALSID_ACTION_END_DX4, FPM_SRV6_LOCALSID_ACTION_END_DT6,
        FPM_SRV6_LOCALSID_ACTION_END_DT4, FPM_SRV6_LOCALSID_ACTION_END_DT46,
        FPM_SRV6_LOCALSID_ACTION_UDT4, FPM_SRV6_LOCALSID_ACTION_UDT6,
        FPM_SRV6_LOCALSID_ACTION_UDT46] : List Nat)) :
    fpm_localsid_action_attrs a ctx =
      some ([{ rta_type := FPM_SRV6_LOCALSID_ACTION, d := .u32 a }] ++
        (if a = FPM_SRV6_LOCALSID_ACTION_END_X then
           [{ rta_type := FPM_SRV6_LOCALSID_NH6, d := .raw (ctx.nh6.take 16) }]
         else if a = FPM_SRV6_LOCALSID_ACTION_END_DX4 then
           [{ rta_type := FPM_SRV6_LOCALSID_NH4, d := .raw (ctx.nh4.take 4) }]
         else
           [{ rta_type := FPM_SRV6_LOCALSID_VRFNAME,
              d := .raw (ctx.vrf_name ++ [0]) }])) := by
  simp only [List.mem_cons, List.not_mem_nil, or_false] at ha
  rcases ha with rfl | rfl | rfl | rfl | rfl | rfl | rfl | rfl | rfl <;> rfl

/-- The End.DT6 nexthop of the spec's end-to-end scenario 5: local-SID
    encap with action END_DT6, vrfname "blue" (bytes 98 108 117 101) and
    structure (40, 24, 16, 0). -/
def nhDT6 : NetlinkNhInfo :=
  { weight := 0
    if_index := 3
    gateway := none
    nh_type := 0
    encap_info := .srv6_localsid FPM_SRV6_LOCALSID_ACTION_END_DT6
      { nh4 := [0, 0, 0, 0]
        nh6 := List.replicate 16 0
        vrf_name := [98, 108, 117, 101] }
      { block_bits_length := 40, node_bits_length := 24,
        function_bits_length := 16, argument_bits_length := 0 } }

/-- A single-nexthop route to 2001::/64 carrying nhDT6. -/
def riDT6 : NetlinkRouteInfo :=
  { nlmsg_pid := 0
    nlmsg_type := 24
    rtm_type := 1
    rtm_table := 254
    rtm_protocol := 11
    af := AF_INET6
    prefix_bytes := [32, 1] ++ List.replicate 14 0
    prefixlen := 64
    metric := some 20
    pref_src := none
    nhs := [nhDT6] }

/-- C7: every single-nexthop route whose nexthop carries SRv6 local-SID
    encapsulation with one of the supported actions encodes to a message
    containing a 16-bit RTA_ENCAP_TYPE attribute of value 102 and a nested
    RTA_ENCAP attribute whose contents are the four one-byte length
    attributes (codes 101, 102, 103, 104 for block, node, function,
    argument), the action attribute (code 1), and the behavior-dependent
    context attribute — NH6 (code 5) for End.X, NH4 (code 4) for End.DX4,
    and the NUL-terminated VRFNAME (code 100) for End.T, End.DT4, End.DT6,
    End.DT46 and the uDT variants; in particular the End.DT6 route with
    vrfname "blue" and structure (40, 24, 16, 0) encodes action value 7 and
    the vrfname bytes of "blue" followed by a NUL byte. -/
theorem fpm_encode_localsid :
    (∀ (ri : NetlinkRouteInfo) (nhi : NetlinkNhInfo) (a : Nat)
        (ctx : Srv6LocalsidContext) (fmt : Srv6LocalsidFormat),
      ri.nhs = [nhi] →
      nhi.encap_info = .srv6_localsid a ctx fmt →
      a ∈ ([FPM_SRV6_LOCALSID_ACTION_END_X, FPM_SRV6_LOCALSID_ACTION_END_T,
          FPM_SRV6_LOCALSID_ACTION_END_DX4, FPM_SRV6_LOCALSID_ACTION_END_DT6,
          FPM_SRV6_LOCALSID_ACTION_END_DT4, FPM_SRV6_LOCALSID_ACTION_END_DT46,
          FPM_SRV6_LOCALSID_ACTION_UDT4, FPM_SRV6_LOCALSID_ACTION_UDT6,
          FPM_SRV6_LOCALSID_ACTION_UDT46] : List Nat) →
      ∃ enc, netlink_route_info_encode ri = some enc ∧
        NlAttr.leaf RTA_ENCAP_TYPE (.u16 FPM_NH_ENCAP_SRV6_LOCAL_SID) ∈
          enc.attrs ∧
        NlAttr.nest RTA_ENCAP
          ([{ rta_type := FPM_SRV6_LOCALSID_BLOCK_LEN,
              d := .u8 fmt.block_bits_length },
            { rta_type := FPM_SRV6_LOCALSID_NODE_LEN,
              d := .u8 fmt.node_bits_length },
            { rta_type := FPM_SRV6_LOCALSID_FUNC_LEN,
              d := .u8 fmt.function_bits_length },
            { rta_type := FPM_SRV6_LOCALSID_ARG_LEN,
              d := .u8 fmt.argument_bits_length },
            { rta_type := FPM_SRV6_LOCALSID_ACTION, d := .u32 a }] ++
           (if a = FPM_SRV6_LOCALSID_ACTION_END_X then
              [{ rta_type := FPM_SRV6_LOCALSID_NH6,
                 d := .raw (ctx.nh6.take 16) }]
            else if a = FPM_SRV6_LOCALSID_ACTION_END_DX4 then
              [{ rta_type := FPM_SRV6_LOCALSID_NH4,
                 d := .raw (ctx.nh4.take 4) }]
            else
              [{ rta_type := FPM_SRV6_LOCALSID_VRFNAME,
                 d := .raw (ctx.vrf_name ++ [0]) }])) ∈ enc.attrs) ∧
    (∃ enc, netlink_route_info_encode riDT6 = some enc ∧
      NlAttr.leaf RTA_ENCAP_TYPE (.u16 102) ∈ enc.attrs ∧
      NlAttr.nest RTA_ENCAP
        [{ rta_type := 101, d := .u8 40 }, { rta_type := 102, d := .u8 24 },
         { rta_type := 103, d := .u8 16 }, { rta_type := 104, d := .u8 0 },
         { rta_type := 1, d := .u32 7 },
         { rta_type := 100, d := .raw [98, 108, 117, 101, 0] }] ∈
        enc.attrs) := by
  constructor
  · intro ri nhi a ctx fmt hnhs henc ha
    have hattrs := fpm_localsid_action_attrs_eq a ctx ha
    unfold netlink_route_info_encode
    rw [hnhs]
    simp only [single_nh_encap_attrs, henc, hattrs]
    refine ⟨_, rfl, ?_, ?_⟩
    · simp [List.mem_append]
    · simp [List.mem_append]
  · exact ⟨_, rfl, by decide, by decide⟩

theorem fpm_encode_localsid_witness :
    ∃ enc, netlink_route_info_encode riDT6 = some enc ∧
      NlAttr.leaf RTA_ENCAP_TYPE (.u16 FPM_NH_ENCAP_SRV6_LOCAL_SID) ∈
        enc.attrs ∧
      NlAttr.nest RTA_ENCAP
        ([{ rta_type := FPM_SRV6_LOCALSID_BLOCK_LEN, d := .u8 40 },
          { rta_type := FPM_SRV6_LOCALSID_NODE_LEN, d := .u8 24 },
          { rta_type := FPM_SRV6_LOCALSID_FUNC_LEN, d := .u8 16 },
          { rta_type := FPM_SRV6_LOCALSID_ARG_LEN, d := .u8 0 },
          { rta_type := FPM_SRV6_LOCALSID_ACTION,
            d := .u32 FPM_SRV6_LOCALSID_ACTION_END_DT6 }] ++
         (if FPM_SRV6_LOCALSID_ACTION_END_DT6 = FPM_SRV6_LOCALSID_ACTION_END_X
          then
            [{ rta_type := FPM_SRV6_LOCALSID_NH6,
               d := .raw ((List.replicate 16 0 : Bytes).take 16) }]
          else if FPM_SRV6_LOCALSID_ACTION_END_DT6 =
              FPM_SRV6_LOCALSID_ACTION_END_DX4 then
            [{ rta_type := FPM_SRV6_LOCALSID_NH4,
               d := .raw (([0, 0, 0, 0] : Bytes).take 4) }]
          else
            [{ rta_type := FPM_SRV6_LOCALSID_VRFNAME,
               d := .raw (([98, 108, 117, 101] : Bytes) ++ [0]) }])) ∈
        enc.attrs :=
  fpm_encode_localsid.1 riDT6 nhDT6 FPM_SRV6_LOCALSID_ACTION_END_DT6
    { nh4 := [0, 0, 0, 0]
      nh6 := List.replicate 16 0
      vrf_name := [98, 108, 117, 101] }
    { block_bits_length := 40, node_bits_length := 24,
      function_bits_length := 16, argument_bits_length := 0 }
    rfl rfl (by decide)

end FrrSrv6
